import Mathlib

/-!
Verification development for the offscreen GPU context factories of the
agus-maps-flutter native core.

The development shallowly embeds the state and operations of
`AgusEglContextFactory` (src/src/AgusEglContextFactory.cpp), the resize and
shared-texture paths of `AgusWglContextFactory`
(src/src/AgusWglContextFactory.cpp), and the two `notifyFlutterFrameReady`
frame-notification functions (src/src/agus_maps_flutter.cpp and
src/src/agus_maps_flutter_linux.cpp).

GPU calls (GL/WGL/EGL) are modelled as an explicit trace of `GpuOp` values
emitted by each operation, so that claims of the form "this entry point
performs no GPU operation" become statements that the emitted trace is empty.
Driver and OS results that the code branches on (context-current success,
framebuffer completeness, D3D call results, keyed-mutex acquisition) are
passed in as explicit boolean environment inputs.
-/

/-- A GPU-side operation performed by the factories.  Each constructor
corresponds to a family of GL/WGL calls appearing in the source. -/
inductive GpuOp where
  | makeCurrent
  | texImage2D (w h : Int)
  | renderbufferStorage (w h : Int)
  | framebufferTexture2D
  | framebufferRenderbuffer
  | checkFramebufferStatus
  | viewport (w h : Int)
  | scissor (w h : Int)
  | readPixels (w h : Int)
  | finish
  | blitFramebuffer
  | registerObject
  | lockObjects
  | unlockObjects
  | genTexture
  | genFramebuffer
  | genRenderbuffer
  | clearBuffers
  | drawBuffers
  deriving DecidableEq, Repr

/-- State of an `AgusEglContextFactory` (fields named after the C++ members;
native handles that the claims do not depend on are elided, GL object ids are
abstracted to an allocation flag). -/
structure EglState where
  m_width : Int
  m_height : Int
  m_renderedWidth : Int
  m_renderedHeight : Int
  m_framebuffer : Bool
  m_glFunctionsInitialized : Bool
  m_framebufferDeferred : Bool
  m_initialized : Bool
  m_pendingResize : Bool
  m_pendingWidth : Int
  m_pendingHeight : Int
  m_pixelBuffer : List Nat
  deriving DecidableEq, Repr

/-- Embeds `AgusEglContextFactory::AgusEglContextFactory(width, height, density)`:
stores the rendered size up front, then runs `InitializeEGL` (its success is
the `eglOk` input); on success it defers framebuffer creation and marks the
factory initialized.  The `density` member plays no role in any claim and is
elided. -/
def EglState.construct (width height : Int) (eglOk : Bool) : EglState :=
  let s : EglState :=
    { m_width := width
      m_height := height
      m_renderedWidth := width
      m_renderedHeight := height
      m_framebuffer := false
      m_glFunctionsInitialized := false
      m_framebufferDeferred := false
      m_initialized := false
      m_pendingResize := false
      m_pendingWidth := 0
      m_pendingHeight := 0
      m_pixelBuffer := [] }
  if eglOk then { s with m_framebufferDeferred := true, m_initialized := true } else s

/-- Embeds `AgusEglContextFactory::GetRenderedWidth()`. -/
def EglState.GetRenderedWidth (s : EglState) : Int := s.m_renderedWidth

/-- Embeds `AgusEglContextFactory::GetRenderedHeight()`. -/
def EglState.GetRenderedHeight (s : EglState) : Int := s.m_renderedHeight

/-- Embeds `AgusEglContextFactory::CreateFramebuffer(width, height)`.
`makeCurrentOk` is the result of the `eglMakeCurrent` call and `complete`
tells whether `glCheckFramebufferStatus` returned `GL_FRAMEBUFFER_COMPLETE`.
Returns the C++ return value, the new state and the GPU trace. -/
def EglState.CreateFramebuffer (s : EglState) (width height : Int)
    (makeCurrentOk complete : Bool) : Bool × EglState × List GpuOp :=
  if width ≤ 0 ∨ height ≤ 0 then (false, s, [])
  else if ¬ makeCurrentOk then (false, s, [GpuOp.makeCurrent])
  else
    let s1 := { s with m_glFunctionsInitialized := true }
    let t : List GpuOp :=
      [GpuOp.makeCurrent, GpuOp.genFramebuffer, GpuOp.genTexture,
       GpuOp.texImage2D width height, GpuOp.framebufferTexture2D,
       GpuOp.genRenderbuffer, GpuOp.renderbufferStorage width height,
       GpuOp.framebufferRenderbuffer, GpuOp.checkFramebufferStatus]
    let s2 := { s1 with m_framebuffer := true }
    if ¬ complete then (false, s2, t ++ [GpuOp.makeCurrent])
    else
      (true, { s2 with m_renderedWidth := width, m_renderedHeight := height },
       t ++ [GpuOp.clearBuffers, GpuOp.makeCurrent])

/-- Embeds `AgusEglContextFactory::GetDrawContext()`: performs the deferred
framebuffer creation exactly once; on failure marks the factory invalid and
returns null (modelled as `false` in the second component). -/
def EglState.GetDrawContext (s : EglState) (makeCurrentOk complete : Bool) :
    EglState × Bool :=
  if s.m_framebufferDeferred ∧ ¬ s.m_framebuffer then
    let r := s.CreateFramebuffer s.m_width s.m_height makeCurrentOk complete
    if r.1 then ({ r.2.1 with m_framebufferDeferred := false }, true)
    else ({ r.2.1 with m_initialized := false }, false)
  else (s, true)

/-- Embeds `AgusEglContextFactory::SetSurfaceSize(width, height)`: only stores the
pending-resize record; emits no GPU operation. -/
def EglState.SetSurfaceSize (s : EglState) (width height : Int) :
    EglState × List GpuOp :=
  if width ≤ 0 ∨ height ≤ 0 then (s, [])
  else if width = s.m_width ∧ height = s.m_height then (s, [])
  else
    ({ s with m_pendingWidth := width, m_pendingHeight := height,
              m_pendingResize := true }, [])

/-- Embeds `AgusEglContextFactory::ApplyPendingResize()`: reallocates storage in
place, re-attaches, re-validates (`complete` is the completeness result, which
the code only logs), updates viewport/scissor and the published sizes. -/
def EglState.ApplyPendingResize (s : EglState) (complete : Bool) :
    EglState × List GpuOp :=
  let width := s.m_pendingWidth
  let height := s.m_pendingHeight
  ({ s with m_width := width, m_height := height,
            m_renderedWidth := width, m_renderedHeight := height },
   [GpuOp.texImage2D width height, GpuOp.renderbufferStorage width height,
    GpuOp.framebufferTexture2D, GpuOp.framebufferRenderbuffer,
    GpuOp.checkFramebufferStatus, GpuOp.viewport width height,
    GpuOp.scissor width height])

/-- Embeds `AgusEglContextFactory::CheckPendingResize()`: claims the pending record
(pending := false) and applies it when it differs from the current size. -/
def EglState.CheckPendingResize (s : EglState) (complete : Bool) :
    EglState × List GpuOp :=
  if ¬ s.m_pendingResize then (s, [])
  else
    let width := s.m_pendingWidth
    let height := s.m_pendingHeight
    let s1 := { s with m_pendingResize := false }
    if width ≤ 0 ∨ height ≤ 0 then (s1, [])
    else if width = s.m_width ∧ height = s.m_height then (s1, [])
    else s1.ApplyPendingResize complete

/-- The vertical-flip copy loop of `CaptureFramePixels`: row `y` of the
result is row `height - 1 - y` of `tempBuffer`, each row being
`width * 4` bytes. -/
def flipImage (tempBuffer : List Nat) (width height : Nat) : List Nat :=
  let rowSize := width * 4
  (((List.range height).map fun y =>
    (tempBuffer.drop ((height - 1 - y) * rowSize)).take rowSize)).flatten

/-- Embeds `AgusEglContextFactory::CaptureFramePixels()`: reads back the framebuffer
(`tempBuffer` is the raw bottom-up readback delivered by `glReadPixels`,
`readError` tells whether `glGetError` reported a failure) and, on success,
stores the vertically flipped image into the staging buffer. -/
def EglState.CaptureFramePixels (s : EglState) (tempBuffer : List Nat)
    (readError : Bool) : EglState × List GpuOp :=
  let width := s.m_renderedWidth
  let height := s.m_renderedHeight
  if width ≤ 0 ∨ height ≤ 0 then (s, [])
  else
    let t := [GpuOp.readPixels width height]
    if readError then (s, t)
    else
      ({ s with m_pixelBuffer := flipImage tempBuffer width.toNat height.toNat }, t)

/-- Embeds `AgusEglContextFactory::CopyToPixelBuffer(buffer, bufferSize)`: pure CPU
copy out of the staging buffer.  `buffer` is `none` for a null pointer,
otherwise the destination contents; the result carries the C++ return value,
the destination contents after the call, and the (empty) GPU trace. -/
def EglState.CopyToPixelBuffer (s : EglState) (buffer : Option (List Nat))
    (bufferSize : Int) : Bool × Option (List Nat) × List GpuOp :=
  match buffer with
  | none => (false, none, [])
  | some d =>
    if bufferSize ≤ 0 then (false, some d, [])
    else if s.m_pixelBuffer.isEmpty then (false, some d, [])
    else
      let copySize := (min bufferSize (s.m_pixelBuffer.length : Int)).toNat
      (true, some (s.m_pixelBuffer.take copySize ++ d.drop copySize), [])

/-- Embeds `AgusEglContext::Present()` for the draw context (present available):
applies any pending resize, issues `glFinish`, captures the frame and fires
the frame callback (the callback itself is modelled separately). -/
def EglState.Present (s : EglState) (complete : Bool) (tempBuffer : List Nat)
    (readError : Bool) : EglState × List GpuOp :=
  let r1 := s.CheckPendingResize complete
  let r2 := r1.1.CaptureFramePixels tempBuffer readError
  (r2.1, r1.2 ++ [GpuOp.finish] ++ r2.2)

/-- State of the Android frame-notification path
(`notifyFlutterFrameReady` in src/src/agus_maps_flutter.cpp together with its
globals `g_lastFrameNotification` and `g_frameNotificationPending`).
`delivered` counts the `CallVoidMethod` deliveries to the host. -/
structure AndroidNotifyState where
  g_lastFrameNotification : Int
  g_frameNotificationPending : Bool
  delivered : Nat
  deriving DecidableEq, Repr

/-- Embeds `kMinFrameInterval = std::chrono::milliseconds(16)`. -/
def kMinFrameInterval : Int := 16

/-- Android `notifyFlutterFrameReady()` at time `now` (milliseconds):
rate limit first, then the compare-and-swap pending flag, then the JNI
delivery (`jvmOk` is whether the JVM/plugin/method globals are all usable and
the thread attach succeeds); the pending flag is cleared before returning. -/
def notifyFlutterFrameReady (s : AndroidNotifyState) (now : Int)
    (jvmOk : Bool) : AndroidNotifyState :=
  if now - s.g_lastFrameNotification < kMinFrameInterval then s
  else if s.g_frameNotificationPending then s
  else
    let s1 := { s with g_frameNotificationPending := true,
                       g_lastFrameNotification := now }
    let s2 := if jvmOk then { s1 with delivered := s1.delivered + 1 } else s1
    { s2 with g_frameNotificationPending := false }

/-- State of the Linux frame-notification path
(`notifyFlutterFrameReady` in src/src/agus_maps_flutter_linux.cpp with its
globals).  `frameActiveRequests` counts `MakeFrameActive` calls and
`delivered` counts invocations of `g_frameReadyCallback`. -/
structure LinuxNotifyState where
  g_keepAliveCounter : Nat
  frameActiveRequests : Nat
  delivered : Nat
  g_frameworkSet : Bool
  g_frameReadyCallbackSet : Bool
  deriving DecidableEq, Repr

/-- Linux `notifyFlutterFrameReady()`: decrements the keep-alive counter and
pokes the framework while the counter is positive, then unconditionally fires
the frame-ready callback when one is registered — no suppression and no rate
limiting. -/
def linuxNotifyFlutterFrameReady (s : LinuxNotifyState) : LinuxNotifyState :=
  let s1 :=
    if 0 < s.g_keepAliveCounter then
      let s' := { s with g_keepAliveCounter := s.g_keepAliveCounter - 1 }
      if s'.g_frameworkSet then
        { s' with frameActiveRequests := s'.frameActiveRequests + 1 }
      else s'
    else s
  if s1.g_frameReadyCallbackSet then { s1 with delivered := s1.delivered + 1 }
  else s1

/-- State of an `AgusWglContextFactory` (interop-relevant members; native
handles abstracted to presence flags, function-pointer availability to
capability flags). -/
structure WglState where
  m_width : Int
  m_height : Int
  m_renderedWidth : Int
  m_renderedHeight : Int
  m_interopDevice : Bool
  m_interopObject : Bool
  m_interopTexture : Bool
  m_interopRenderbuffer : Bool
  m_interopFramebuffer : Bool
  m_sharedTexture : Bool
  m_stagingTexture : Bool
  m_sharedHandle : Bool
  m_keyedMutex : Bool
  m_useKeyedMutex : Bool
  hasOpenDeviceFn : Bool
  hasLockFns : Bool
  deriving DecidableEq, Repr

/-- Driver/OS results consumed by `CreateSharedTexture` and
`SetSurfaceSize` on the WGL backend. -/
structure WglCreateEnv where
  prevContextIsOurs : Bool
  makeCurrentOk : Bool
  createSharedOk : Bool
  asDxgiOk : Bool
  getHandleOk : Bool
  keyedMutexQueryOk : Bool
  shouldUseKeyedMutex : Bool
  openDeviceOk : Bool
  texRegisterOk : Bool
  texLockOk : Bool
  texComplete : Bool
  rbRegisterOk : Bool
  rbLockOk : Bool
  rbComplete : Bool
  createStagingOk : Bool
  deriving DecidableEq, Repr

/-- Embeds `AgusWglContextFactory::CreateSharedTexture(width, height)`: tears down
any previous interop registration and shared resources, recreates the D3D11
shared texture, and re-attempts WGL/DX interop registration (texture target
first, renderbuffer target as fallback); on registration failure the interop
device is closed and the factory is left on the CPU staging path. -/
def WglState.CreateSharedTexture (s : WglState) (env : WglCreateEnv)
    (width height : Int) : Bool × WglState × List GpuOp :=
  let t0 : List GpuOp := if env.prevContextIsOurs then [] else [GpuOp.makeCurrent]
  if ¬ env.prevContextIsOurs ∧ ¬ env.makeCurrentOk then (false, s, t0)
  else
    let s1 := { s with m_interopDevice := false, m_interopObject := false,
                       m_interopFramebuffer := false,
                       m_interopRenderbuffer := false,
                       m_interopTexture := false, m_sharedHandle := false,
                       m_sharedTexture := false, m_stagingTexture := false,
                       m_keyedMutex := false }
    let s2 := { s1 with m_useKeyedMutex := env.shouldUseKeyedMutex }
    if ¬ env.createSharedOk then (false, s2, t0)
    else
      let s3 := { s2 with m_sharedTexture := true }
      if ¬ env.asDxgiOk then (false, s3, t0)
      else if ¬ env.getHandleOk then (false, s3, t0)
      else
        let s4 := { s3 with m_sharedHandle := true }
        if s4.m_useKeyedMutex ∧ ¬ env.keyedMutexQueryOk then (false, s4, t0)
        else
          let s5 := if s4.m_useKeyedMutex then { s4 with m_keyedMutex := true }
                    else s4
          let interopResult : WglState × List GpuOp :=
            if ¬ s5.hasOpenDeviceFn then (s5, [])
            else if ¬ env.openDeviceOk then (s5, [])
            else
              let sDev := { s5 with m_interopDevice := true }
              let texTrace : List GpuOp :=
                [GpuOp.genTexture, GpuOp.registerObject] ++
                (if env.texRegisterOk then
                  (if env.texLockOk then
                    [GpuOp.lockObjects, GpuOp.genFramebuffer,
                     GpuOp.framebufferTexture2D, GpuOp.drawBuffers,
                     GpuOp.checkFramebufferStatus, GpuOp.unlockObjects]
                   else [GpuOp.lockObjects])
                 else [])
              if env.texRegisterOk ∧ env.texLockOk ∧ env.texComplete then
                ({ sDev with m_interopTexture := true, m_interopObject := true,
                             m_interopFramebuffer := true }, texTrace)
              else
                let rbTrace : List GpuOp :=
                  [GpuOp.genRenderbuffer, GpuOp.registerObject] ++
                  (if env.rbRegisterOk then
                    (if env.rbLockOk then
                      [GpuOp.lockObjects, GpuOp.genFramebuffer,
                       GpuOp.framebufferRenderbuffer, GpuOp.drawBuffers,
                       GpuOp.checkFramebufferStatus, GpuOp.unlockObjects]
                     else [GpuOp.lockObjects])
                   else [])
                if env.rbRegisterOk ∧ env.rbLockOk ∧ env.rbComplete then
                  ({ sDev with m_interopRenderbuffer := true,
                               m_interopObject := true,
                               m_interopFramebuffer := true },
                   texTrace ++ rbTrace)
                else ({ s5 with m_interopDevice := false }, texTrace ++ rbTrace)
          let s6 := interopResult.1
          let t6 := t0 ++ interopResult.2 ++
                    (if env.prevContextIsOurs then [] else [GpuOp.makeCurrent])
          if ¬ env.createStagingOk then (false, s6, t6)
          else
            (true, { s6 with m_stagingTexture := true,
                             m_width := width, m_height := height }, t6)

/-- Embeds `AgusWglContextFactory::SetSurfaceSize(width, height)`: unless the size
is unchanged, makes the draw context current on the calling thread,
reallocates the texture and renderbuffer storage, re-attaches and
re-validates the framebuffer, updates viewport/scissor, restores the previous
context, updates the stored size and recreates the D3D11 shared texture. -/
def WglState.SetSurfaceSize (s : WglState) (env : WglCreateEnv)
    (width height : Int) : WglState × List GpuOp :=
  if width = s.m_width ∧ height = s.m_height then (s, [])
  else if ¬ env.makeCurrentOk then (s, [GpuOp.makeCurrent])
  else
    let t : List GpuOp :=
      [GpuOp.makeCurrent, GpuOp.texImage2D width height,
       GpuOp.renderbufferStorage width height, GpuOp.framebufferTexture2D,
       GpuOp.framebufferRenderbuffer, GpuOp.drawBuffers,
       GpuOp.checkFramebufferStatus, GpuOp.viewport width height,
       GpuOp.scissor width height, GpuOp.makeCurrent]
    let s1 := { s with m_width := width, m_height := height }
    let r := s1.CreateSharedTexture env width height
    (r.2.1, t ++ r.2.2)

/-- Per-frame environment consumed by `CopyToSharedTexture`. -/
structure WglCopyEnv where
  wasOurContext : Bool
  viewportW : Int
  viewportH : Int
  acquireOk : Bool
  lockOk : Bool
  deriving DecidableEq, Repr

/-- Embeds `AgusWglContextFactory::CopyToSharedTexture()`: chooses the zero-copy
interop blit when a registered interop object is available, otherwise the CPU
readback path; stores the clamped viewport size as the rendered size.  It
never attempts interop registration. -/
def WglState.CopyToSharedTexture (s : WglState) (env : WglCopyEnv) :
    WglState × List GpuOp :=
  let useInterop := s.m_interopObject ∧ s.m_interopFramebuffer ∧
                    s.m_interopDevice ∧ s.hasLockFns
  if ¬ useInterop ∧ (¬ s.m_stagingTexture ∨ ¬ s.m_sharedTexture) then (s, [])
  else
    let t0 : List GpuOp := if env.wasOurContext then [] else [GpuOp.makeCurrent]
    let badViewport := env.viewportW ≤ 0 ∨ env.viewportH ≤ 0
    let rw0 := if badViewport then s.m_width else env.viewportW
    let rh0 := if badViewport then s.m_height else env.viewportH
    let rw := if s.m_width < rw0 then s.m_width else rw0
    let rh := if s.m_height < rh0 then s.m_height else rh0
    let s1 := { s with m_renderedWidth := rw, m_renderedHeight := rh }
    let tEnd : List GpuOp := if env.wasOurContext then [] else [GpuOp.makeCurrent]
    if useInterop then
      let locked := ¬ s.m_keyedMutex ∨ env.acquireOk
      let tBody : List GpuOp :=
        if locked then
          (if env.lockOk then
            [GpuOp.lockObjects, GpuOp.blitFramebuffer, GpuOp.unlockObjects]
           else [GpuOp.lockObjects])
        else []
      (s1, t0 ++ [GpuOp.finish] ++ tBody ++ tEnd)
    else
      (s1, t0 ++ [GpuOp.checkFramebufferStatus, GpuOp.finish,
                  GpuOp.readPixels rw rh] ++ tEnd)

/-- Row extraction from a flat pixel buffer: row `y` is the `rowSize` bytes
starting at offset `y * rowSize`. -/
def rowOf (buf : List Nat) (rowSize y : Nat) : List Nat :=
  (buf.drop (y * rowSize)).take rowSize

/-- Sample 800x600 factory state with a pending 400x300 resize, used for the
resize-failure scenarios. -/
def eglPendingSample : EglState :=
  { m_width := 800, m_height := 600, m_renderedWidth := 800,
    m_renderedHeight := 600, m_framebuffer := true,
    m_glFunctionsInitialized := true, m_framebufferDeferred := false,
    m_initialized := true, m_pendingResize := true, m_pendingWidth := 400,
    m_pendingHeight := 300, m_pixelBuffer := [] }

/-- Issues a burst of `SetSurfaceSize` requests in order (no `Present`
between them). -/
def applyResizeRequests (s : EglState) (reqs : List (Int × Int)) : EglState :=
  reqs.foldl (fun st r => (st.SetSurfaceSize r.1 r.2).1) s

/-- The state after `SetSurfaceSize` stores a pending record. -/
def setPending (s : EglState) (w h : Int) : EglState :=
  { s with m_pendingWidth := w, m_pendingHeight := h, m_pendingResize := true }

/-- An 800x600 WGL factory currently on the CPU fallback path (a previous
interop registration failed), with the interop entry points available. -/
def wglFallbackSample : WglState :=
  { m_width := 800, m_height := 600, m_renderedWidth := 800,
    m_renderedHeight := 600, m_interopDevice := false,
    m_interopObject := false, m_interopTexture := false,
    m_interopRenderbuffer := false, m_interopFramebuffer := false,
    m_sharedTexture := true, m_stagingTexture := true,
    m_sharedHandle := true, m_keyedMutex := false, m_useKeyedMutex := false,
    hasOpenDeviceFn := true, hasLockFns := true }

/-- A WGL environment in which every driver and D3D call succeeds; the keyed
mutex is left at its default (disabled). -/
def wglEnvAllOk : WglCreateEnv :=
  { prevContextIsOurs := true, makeCurrentOk := true, createSharedOk := true,
    asDxgiOk := true, getHandleOk := true, keyedMutexQueryOk := true,
    shouldUseKeyedMutex := false, openDeviceOk := true, texRegisterOk := true,
    texLockOk := true, texComplete := true, rbRegisterOk := true,
    rbLockOk := true, rbComplete := true, createStagingOk := true }


/-! ## Helper lemmas shared between claims -/

theorem egl_setSurfaceSize_state (s : EglState) (w h : Int) :
    (s.SetSurfaceSize w h).2 = [] ∧
    (s.SetSurfaceSize w h).1.m_width = s.m_width ∧
    (s.SetSurfaceSize w h).1.m_height = s.m_height ∧
    (s.SetSurfaceSize w h).1.m_renderedWidth = s.m_renderedWidth ∧
    (s.SetSurfaceSize w h).1.m_renderedHeight = s.m_renderedHeight ∧
    (s.SetSurfaceSize w h).1.m_pixelBuffer = s.m_pixelBuffer ∧
    (s.SetSurfaceSize w h).1.m_framebuffer = s.m_framebuffer ∧
    (s.SetSurfaceSize w h).1.m_initialized = s.m_initialized ∧
    (s.SetSurfaceSize w h).1.m_framebufferDeferred = s.m_framebufferDeferred ∧
    (s.SetSurfaceSize w h).1.m_glFunctionsInitialized
      = s.m_glFunctionsInitialized := by
  unfold EglState.SetSurfaceSize
  split
  · simp
  · split <;> simp

theorem egl_capture_rendered (s : EglState) (buf : List Nat) (e : Bool) :
    (s.CaptureFramePixels buf e).1.m_renderedWidth = s.m_renderedWidth ∧
    (s.CaptureFramePixels buf e).1.m_renderedHeight = s.m_renderedHeight := by
  unfold EglState.CaptureFramePixels
  dsimp only
  split
  · simp
  · split <;> simp

/-! ## C6: CopyToPixelBuffer before any capture -/

/-- C6: before any frame has been captured (empty staging buffer),
`CopyToPixelBuffer` returns false, leaves the destination buffer untouched,
and performs no GPU operation; a null buffer also yields false. -/
theorem c6_copy_before_capture (s : EglState) (d : List Nat) (n : Int)
    (hempty : s.m_pixelBuffer = []) :
    s.CopyToPixelBuffer (some d) n = (false, some d, []) ∧
    s.CopyToPixelBuffer none n = (false, none, []) := by
  refine ⟨?_, rfl⟩
  simp only [EglState.CopyToPixelBuffer]
  split
  · rfl
  · simp [hempty]

/-- C6 witness at a concrete state and buffer. -/
theorem c6_copy_before_capture_witness :
    (EglState.construct 800 600 true).CopyToPixelBuffer (some [7, 7, 7]) 3
      = (false, some [7, 7, 7], []) :=
  (c6_copy_before_capture (EglState.construct 800 600 true) [7, 7, 7] 3
    (by decide)).1

/-! ## C8: rendered size right after construction -/

/-- C8: for positive requested dimensions, immediately after the factory
constructor succeeds (factory initialized) and before any resize,
`GetRenderedWidth`/`GetRenderedHeight` return the requested dimensions and no
resize is pending. -/
theorem c8_rendered_size_after_construct (w h : Int) (eglOk : Bool)
    (hw : 0 < w) (hh : 0 < h)
    (hinit : (EglState.construct w h eglOk).m_initialized = true) :
    (EglState.construct w h eglOk).GetRenderedWidth = w ∧
    (EglState.construct w h eglOk).GetRenderedHeight = h ∧
    (EglState.construct w h eglOk).m_pendingResize = false := by
  unfold EglState.construct EglState.GetRenderedWidth EglState.GetRenderedHeight
  split <;> simp

/-- C8 witness at the 800x600 construction. -/
theorem c8_rendered_size_after_construct_witness :
    (EglState.construct 800 600 true).GetRenderedWidth = 800 ∧
    (EglState.construct 800 600 true).GetRenderedHeight = 600 ∧
    (EglState.construct 800 600 true).m_pendingResize = false :=
  c8_rendered_size_after_construct 800 600 true (by decide) (by decide)
    (by decide)

/-! ## C9: capture failure leaves the staging buffer unchanged -/

/-- C9: if the GPU readback reports an error, `CaptureFramePixels` leaves the
whole factory state (in particular the staging buffer) unchanged, so a
subsequent `CopyToPixelBuffer` behaves exactly as before the failed
capture. -/
theorem c9_capture_error_atomic (s : EglState) (tempBuffer : List Nat)
    (d : Option (List Nat)) (n : Int) :
    (s.CaptureFramePixels tempBuffer true).1 = s ∧
    (s.CaptureFramePixels tempBuffer true).1.CopyToPixelBuffer d n
      = s.CopyToPixelBuffer d n := by
  have h1 : (s.CaptureFramePixels tempBuffer true).1 = s := by
    unfold EglState.CaptureFramePixels
    dsimp only
    split <;> rfl
  exact ⟨h1, by rw [h1]⟩

/-! ## C10: CopyToPixelBuffer bounds -/

/-- C10: with a non-null destination, positive size and a non-empty staging
buffer, `CopyToPixelBuffer` overwrites exactly the first
`min(bufferSize, staging size)` bytes of the destination (leaving the rest of
the destination intact and reading no further than the staging buffer's end),
returns true even when the destination is smaller than the captured frame,
and returns false for a null buffer or a non-positive size. -/
theorem c10_copy_bounds (s : EglState) (d : List Nat) (n : Int) :
    ((0 < n ∧ s.m_pixelBuffer ≠ []) →
      s.CopyToPixelBuffer (some d) n
        = (true,
           some (s.m_pixelBuffer.take (min n (s.m_pixelBuffer.length : Int)).toNat
                 ++ d.drop (min n (s.m_pixelBuffer.length : Int)).toNat),
           []) ∧
      (min n (s.m_pixelBuffer.length : Int)).toNat ≤ n.toNat ∧
      (min n (s.m_pixelBuffer.length : Int)).toNat ≤ s.m_pixelBuffer.length ∧
      ((min n (s.m_pixelBuffer.length : Int)).toNat ≤ d.length →
        (s.m_pixelBuffer.take (min n (s.m_pixelBuffer.length : Int)).toNat
          ++ d.drop (min n (s.m_pixelBuffer.length : Int)).toNat).length
          = d.length)) ∧
    s.CopyToPixelBuffer none n = (false, none, []) ∧
    (n ≤ 0 → s.CopyToPixelBuffer (some d) n = (false, some d, [])) := by
  refine ⟨?_, rfl, ?_⟩
  · rintro ⟨hn, hb⟩
    have hle : ¬ n ≤ 0 := by omega
    have hbe : s.m_pixelBuffer.isEmpty = false := by
      simpa [List.isEmpty_iff] using hb
    refine ⟨?_, ?_, ?_, ?_⟩
    · simp only [EglState.CopyToPixelBuffer, hbe, hle]
      simp
    · have : min n (s.m_pixelBuffer.length : Int) ≤ n := min_le_left _ _
      omega
    · have h2 : min n (s.m_pixelBuffer.length : Int)
          ≤ (s.m_pixelBuffer.length : Int) := min_le_right _ _
      omega
    · intro hd
      rw [List.length_append, List.length_take, List.length_drop]
      have h2 : min n (s.m_pixelBuffer.length : Int)
          ≤ (s.m_pixelBuffer.length : Int) := min_le_right _ _
      omega
  · intro hle
    simp only [EglState.CopyToPixelBuffer, if_pos hle]

/-- C10 witness: staging buffer of four bytes, destination of three bytes,
requested size 2 — a partial two-byte copy that succeeds. -/
theorem c10_copy_bounds_witness :
    ({ EglState.construct 1 1 true with
        m_pixelBuffer := [10, 20, 30, 40] } : EglState).CopyToPixelBuffer
      (some [1, 2, 3]) 2 = (true, some [10, 20, 3], []) := by
  have h := (c10_copy_bounds
    ({ EglState.construct 1 1 true with m_pixelBuffer := [10, 20, 30, 40] })
    [1, 2, 3] 2).1 ⟨by decide, by decide⟩
  simpa using h.1


/-! ## C7: vertical-flip correctness of the captured frame -/

theorem rowOf_flatten (rs : Nat) :
    ∀ (L : List (List Nat)), (∀ l ∈ L, l.length = rs) →
      ∀ y, y < L.length → rowOf L.flatten rs y = L.getD y [] := by
  intro L
  induction L with
  | nil => intro _ y hy; simp at hy
  | cons c L ih =>
    intro hL y hy
    have hc : c.length = rs := hL c (by simp)
    cases y with
    | zero =>
      simp only [rowOf, List.flatten_cons, Nat.zero_mul, List.drop_zero,
        List.getD_cons_zero]
      rw [List.take_append_of_le_length (by omega), ← hc, List.take_length]
    | succ y =>
      have hy' : y < L.length := by simpa using hy
      have h1 : (y + 1) * rs = c.length + y * rs := by rw [hc]; ring
      have hstep : (c ++ L.flatten).drop ((y + 1) * rs)
          = L.flatten.drop (y * rs) := by rw [h1, List.drop_append]
      have hih := ih (fun l hl => hL l (List.mem_cons_of_mem _ hl)) y hy'
      simpa [rowOf, List.flatten_cons, hstep] using hih

theorem rowOf_flipImage (buf : List Nat) (w h y : Nat)
    (hlen : buf.length = h * (w * 4)) (hy : y < h) :
    rowOf (flipImage buf w h) (w * 4) y = rowOf buf (w * 4) (h - 1 - y) := by
  have hrow : ∀ z, z < h →
      ((buf.drop ((h - 1 - z) * (w * 4))).take (w * 4)).length = w * 4 := by
    intro z hz
    rw [List.length_take, List.length_drop, hlen]
    have h1 : h - 1 - z + 1 ≤ h := by omega
    have h2 : (h - 1 - z) * (w * 4) + (w * 4) ≤ h * (w * 4) := by
      calc (h - 1 - z) * (w * 4) + (w * 4)
          = (h - 1 - z + 1) * (w * 4) := by ring
        _ ≤ h * (w * 4) := Nat.mul_le_mul_right _ h1
    omega
  have hmem : ∀ l ∈ ((List.range h).map fun z =>
      (buf.drop ((h - 1 - z) * (w * 4))).take (w * 4)), l.length = w * 4 := by
    intro l hl
    rw [List.mem_map] at hl
    obtain ⟨z, hz, rfl⟩ := hl
    exact hrow z (List.mem_range.mp hz)
  have hylt : y < ((List.range h).map fun z =>
      (buf.drop ((h - 1 - z) * (w * 4))).take (w * 4)).length := by
    simpa using hy
  have hflat := rowOf_flatten (w * 4)
    ((List.range h).map fun z => (buf.drop ((h - 1 - z) * (w * 4))).take (w * 4))
    hmem y hylt
  have hgoal : rowOf (flipImage buf w h) (w * 4) y
      = ((List.range h).map fun z =>
          (buf.drop ((h - 1 - z) * (w * 4))).take (w * 4)).getD y [] := by
    simpa [flipImage] using hflat
  rw [hgoal]
  simp [List.getD_eq_getElem?_getD, List.getElem?_map, List.getElem?_range hy, rowOf]

/-- C7: after a successful capture at rendered size `(w, h)`, row `y` of the
staging pixel buffer equals row `h - 1 - y` of the raw GPU readback — the
staging buffer is the vertical flip of the readback, so its first row is the
topmost rendered content. -/
theorem c7_capture_vertical_flip (s : EglState) (tempBuffer : List Nat)
    (w h y : Nat)
    (hw : s.m_renderedWidth = (w : Int)) (hh : s.m_renderedHeight = (h : Int))
    (hw0 : 0 < w) (hh0 : 0 < h)
    (hlen : tempBuffer.length = h * (w * 4)) (hy : y < h) :
    rowOf (s.CaptureFramePixels tempBuffer false).1.m_pixelBuffer (w * 4) y
      = rowOf tempBuffer (w * 4) (h - 1 - y) := by
  have hwpos : ¬ (s.m_renderedWidth ≤ 0 ∨ s.m_renderedHeight ≤ 0) := by
    rw [hw, hh]
    push_neg
    exact ⟨by exact_mod_cast hw0, by exact_mod_cast hh0⟩
  have hcap : (s.CaptureFramePixels tempBuffer false).1
      = { s with m_pixelBuffer := (flipImage tempBuffer s.m_renderedWidth.toNat s.m_renderedHeight.toNat) } := by
    unfold EglState.CaptureFramePixels
    dsimp only
    rw [if_neg hwpos]
    rfl
  rw [hcap]
  show rowOf (flipImage tempBuffer s.m_renderedWidth.toNat s.m_renderedHeight.toNat) (w * 4) y = _
  have htn : s.m_renderedWidth.toNat = w := by rw [hw]; exact Int.toNat_natCast w
  have htn2 : s.m_renderedHeight.toNat = h := by
    rw [hh]; exact Int.toNat_natCast h
  rw [htn, htn2]
  exact rowOf_flipImage tempBuffer w h y hlen hy

/-- C7 witness: a 1x2 frame, bottom-up readback `[0,1,2,3,4,5,6,7]`; the
first staging row is the readback's last row `[4,5,6,7]`. -/
theorem c7_capture_vertical_flip_witness :
    rowOf ((EglState.construct 1 2 true).CaptureFramePixels
      [0, 1, 2, 3, 4, 5, 6, 7] false).1.m_pixelBuffer 4 0
      = rowOf [0, 1, 2, 3, 4, 5, 6, 7] 4 1 := by
  have h := c7_capture_vertical_flip (EglState.construct 1 2 true)
    [0, 1, 2, 3, 4, 5, 6, 7] 1 2 0 (by decide) (by decide) (by decide)
    (by decide) (by decide) (by decide)
  simpa using h

/-! ## C3: frame-ready notification rate limiting -/

theorem notify_skip (s : AndroidNotifyState) (t : Int) (jvmOk : Bool)
    (h : t - s.g_lastFrameNotification < kMinFrameInterval) :
    notifyFlutterFrameReady s t jvmOk = s := by
  unfold notifyFlutterFrameReady
  rw [if_pos h]

theorem notify_burst_fold (rest : List Int) :
    ∀ s : AndroidNotifyState,
      (∀ t ∈ rest, t - s.g_lastFrameNotification < kMinFrameInterval) →
      rest.foldl (fun st t => notifyFlutterFrameReady st t true) s = s := by
  induction rest with
  | nil => intro s _; rfl
  | cons t rest ih =>
    intro s hall
    have h1 : notifyFlutterFrameReady s t true = s :=
      notify_skip s t true (hall t (by simp))
    simp only [List.foldl_cons, h1]
    exact ih s fun u hu => hall u (List.mem_cons_of_mem _ hu)

/-- C3 counterexample: on the Linux notification path, two `Present`-driven
calls to `notifyFlutterFrameReady` within any interval deliver two frame-ready
callbacks, not one — there is no suppression or rate limiting there. -/
theorem c3_counterexample :
    (linuxNotifyFlutterFrameReady (linuxNotifyFlutterFrameReady
      { g_keepAliveCounter := 0, frameActiveRequests := 0, delivered := 0,
        g_frameworkSet := true, g_frameReadyCallbackSet := true })).delivered = 2
    ∧ ¬ (linuxNotifyFlutterFrameReady (linuxNotifyFlutterFrameReady
      { g_keepAliveCounter := 0, frameActiveRequests := 0, delivered := 0,
        g_frameworkSet := true, g_frameReadyCallbackSet := true })).delivered = 1
    := by decide

/-- C3 amended: on the Android notification path, a burst of `Present` calls
whose first call is at least one interval after the previous delivery and
whose remaining calls all fall within one interval of the first delivers
exactly one frame-ready notification; the Linux path has no such limiting and
delivers one callback per call. -/
theorem c3_rate_limit_android_only (s : AndroidNotifyState) (t0 : Int)
    (rest : List Int)
    (hp : s.g_frameNotificationPending = false)
    (h0 : kMinFrameInterval ≤ t0 - s.g_lastFrameNotification)
    (hrest : ∀ t ∈ rest, t - t0 < kMinFrameInterval) :
    (rest.foldl (fun st t => notifyFlutterFrameReady st t true)
      (notifyFlutterFrameReady s t0 true)).delivered = s.delivered + 1 ∧
    ∀ l : LinuxNotifyState, l.g_frameReadyCallbackSet = true →
      (linuxNotifyFlutterFrameReady l).delivered = l.delivered + 1 := by
  constructor
  · have hfirst : notifyFlutterFrameReady s t0 true
        = { s with g_lastFrameNotification := t0,
                   g_frameNotificationPending := false,
                   delivered := s.delivered + 1 } := by
      unfold notifyFlutterFrameReady
      rw [if_neg (by omega), if_neg (by simp [hp])]
      rfl
    rw [hfirst, notify_burst_fold rest _ (fun t ht => hrest t ht)]
  · intro l hl
    unfold linuxNotifyFlutterFrameReady
    dsimp only
    split
    · split <;> simp [hl]
    · simp [hl]

/-- C3 witness: previous delivery at time 0, burst at times 16, 20 and 30;
exactly one delivery results, and one Linux call delivers once. -/
theorem c3_rate_limit_android_only_witness :
    ([(20 : Int), 30].foldl (fun st t => notifyFlutterFrameReady st t true)
      (notifyFlutterFrameReady
        { g_lastFrameNotification := 0, g_frameNotificationPending := false,
          delivered := 0 } 16 true)).delivered = 0 + 1 ∧
    ∀ l : LinuxNotifyState, l.g_frameReadyCallbackSet = true →
      (linuxNotifyFlutterFrameReady l).delivered = l.delivered + 1 :=
  c3_rate_limit_android_only
    { g_lastFrameNotification := 0, g_frameNotificationPending := false,
      delivered := 0 } 16 [20, 30] (by decide) (by decide) (by decide)

/-! ## C5: framebuffer-incomplete handling -/

/-- C5 counterexample: with a pending 400x300 resize on an 800x600 factory,
`CheckPendingResize` under a failed completeness validation still publishes
the new rendered size 400 — the previous published size 800 is not retained
and the resize is not aborted. -/
theorem c5_counterexample :
    (eglPendingSample.CheckPendingResize false).1.GetRenderedWidth = 400 ∧
    ¬ (eglPendingSample.CheckPendingResize false).1.GetRenderedWidth = 800 := by
  decide

/-- C5 amended: when completeness validation fails after re-attachment during
a resize, the failure is only logged and the resize still completes — the
published rendered size is updated to the pending dimensions, not retained;
when validation fails during initial framebuffer creation,
`CreateFramebuffer` returns false without publishing a new rendered size and
the deferred creation in `GetDrawContext` marks the factory invalid. -/
theorem c5_incomplete_resize_proceeds :
    (∀ s : EglState, s.m_pendingResize = true →
      ¬ (s.m_pendingWidth ≤ 0 ∨ s.m_pendingHeight ≤ 0) →
      ¬ (s.m_pendingWidth = s.m_width ∧ s.m_pendingHeight = s.m_height) →
      (s.CheckPendingResize false).1.GetRenderedWidth = s.m_pendingWidth ∧
      (s.CheckPendingResize false).1.GetRenderedHeight = s.m_pendingHeight) ∧
    (∀ (s : EglState) (w h : Int), 0 < w → 0 < h →
      (s.CreateFramebuffer w h true false).1 = false ∧
      (s.CreateFramebuffer w h true false).2.1.GetRenderedWidth
        = s.GetRenderedWidth ∧
      (s.CreateFramebuffer w h true false).2.1.GetRenderedHeight
        = s.GetRenderedHeight) ∧
    (∀ s : EglState, s.m_framebufferDeferred = true → s.m_framebuffer = false →
      (s.GetDrawContext true false).1.m_initialized = false ∧
      (s.GetDrawContext true false).2 = false) := by
  refine ⟨?_, ?_, ?_⟩
  · intro s hpend hpos hne
    unfold EglState.CheckPendingResize
    rw [if_neg (by simp [hpend]), if_neg hpos, if_neg hne]
    unfold EglState.ApplyPendingResize EglState.GetRenderedWidth
      EglState.GetRenderedHeight
    exact ⟨rfl, rfl⟩
  · intro s w h hw hh
    unfold EglState.CreateFramebuffer
    rw [if_neg (by omega), if_neg (by simp)]
    dsimp only
    rw [if_pos (by simp)]
    unfold EglState.GetRenderedWidth EglState.GetRenderedHeight
    exact ⟨rfl, rfl, rfl⟩
  · intro s hdef hfb
    unfold EglState.GetDrawContext
    rw [if_pos (by simp [hdef, hfb])]
    dsimp only
    have hfail : (s.CreateFramebuffer s.m_width s.m_height true false).1
        = false := by
      unfold EglState.CreateFramebuffer
      split
      · rfl
      · rw [if_neg (by simp)]
        dsimp only
        rw [if_pos (by simp)]
    rw [hfail]
    exact ⟨rfl, rfl⟩

/-- C5 witness: the concrete pending-resize state and a concrete failed
initial creation. -/
theorem c5_incomplete_resize_proceeds_witness :
    (eglPendingSample.CheckPendingResize false).1.GetRenderedWidth = 400 ∧
    ((EglState.construct 800 600 true).CreateFramebuffer 800 600 true
      false).1 = false ∧
    ((EglState.construct 800 600 true).GetDrawContext true
      false).1.m_initialized = false := by
  refine ⟨?_, ?_, ?_⟩
  · exact (c5_incomplete_resize_proceeds.1 eglPendingSample
      (by decide) (by decide) (by decide)).1
  · exact (c5_incomplete_resize_proceeds.2.1 (EglState.construct 800 600 true)
      800 600 (by decide) (by decide)).1
  · exact (c5_incomplete_resize_proceeds.2.2 (EglState.construct 800 600 true)
      (by decide) (by decide)).1

/-! ## C2: coalescing of resize requests -/

theorem applyResizeRequests_dims (reqs : List (Int × Int)) :
    ∀ s : EglState, (applyResizeRequests s reqs).m_width = s.m_width ∧
      (applyResizeRequests s reqs).m_height = s.m_height := by
  induction reqs with
  | nil => intro s; exact ⟨rfl, rfl⟩
  | cons r reqs ih =>
    intro s
    have hfold : applyResizeRequests s (r :: reqs)
        = applyResizeRequests (s.SetSurfaceSize r.1 r.2).1 reqs := rfl
    obtain ⟨hw, hh⟩ := ih (s.SetSurfaceSize r.1 r.2).1
    obtain ⟨-, hw2, hh2, -⟩ := egl_setSurfaceSize_state s r.1 r.2
    rw [hfold]
    exact ⟨hw.trans hw2, hh.trans hh2⟩

/-- C2 counterexample: on an 800x600 factory, the burst
`SetSurfaceSize(400,300); SetSurfaceSize(800,600)` (two distinct positive
sizes) is followed by a `Present` that applies 400x300 — the size of the
*first* request, not the last: the last request, being equal to the factory's
current size, was discarded by the early-return and the earlier pending
request survived. -/
theorem c2_counterexample :
    ((((EglState.construct 800 600 true).SetSurfaceSize 400
        300).1.SetSurfaceSize 800 600).1.Present true []
        false).1.GetRenderedWidth = 400 ∧
    ¬ ((((EglState.construct 800 600 true).SetSurfaceSize 400
        300).1.SetSurfaceSize 800 600).1.Present true []
        false).1.GetRenderedWidth = 800 := by decide

/-- C2 amended: last-writer-wins coalescing holds provided the final request
of the burst differs from the factory's current stored size: after any burst
whose last request is positive and differs from the current size, the next
`Present` applies exactly that last size (all earlier requests are dropped).
A final request equal to the current stored size is ignored by the
early-return in `SetSurfaceSize`, leaving any earlier pending request to be
applied instead. -/
theorem c2_coalescing_last_writer (s : EglState) (reqs : List (Int × Int))
    (w h : Int) (complete : Bool) (tempBuffer : List Nat) (readError : Bool)
    (hw : 0 < w) (hh : 0 < h) (hne : ¬ (w = s.m_width ∧ h = s.m_height)) :
    ((applyResizeRequests s (reqs ++ [(w, h)])).Present complete tempBuffer
      readError).1.GetRenderedWidth = w ∧
    ((applyResizeRequests s (reqs ++ [(w, h)])).Present complete tempBuffer
      readError).1.GetRenderedHeight = h := by
  have happ : applyResizeRequests s (reqs ++ [(w, h)])
      = ((applyResizeRequests s reqs).SetSurfaceSize w h).1 := by
    unfold applyResizeRequests
    rw [List.foldl_append]
    rfl
  obtain ⟨hwdim, hhdim⟩ := applyResizeRequests_dims reqs s
  have hne2 : ¬ (w = (applyResizeRequests s reqs).m_width
      ∧ h = (applyResizeRequests s reqs).m_height) := by
    rw [hwdim, hhdim]; exact hne
  have hset : ((applyResizeRequests s reqs).SetSurfaceSize w h).1
      = setPending (applyResizeRequests s reqs) w h := by
    unfold EglState.SetSurfaceSize setPending
    rw [if_neg (by omega), if_neg hne2]
  have hcheck : ((setPending (applyResizeRequests s reqs) w
        h).CheckPendingResize complete).1.m_renderedWidth = w ∧
      ((setPending (applyResizeRequests s reqs) w
        h).CheckPendingResize complete).1.m_renderedHeight = h := by
    unfold EglState.CheckPendingResize setPending
    rw [if_neg (by simp), if_neg (by dsimp only; omega)]
    rw [if_neg (by simpa using hne2)]
    unfold EglState.ApplyPendingResize
    exact ⟨rfl, rfl⟩
  rw [happ, hset]
  unfold EglState.Present
  dsimp only
  obtain ⟨hcw, hch⟩ := egl_capture_rendered
    ((setPending (applyResizeRequests s reqs) w h).CheckPendingResize
      complete).1 tempBuffer readError
  unfold EglState.GetRenderedWidth EglState.GetRenderedHeight
  rw [hcw, hch, hcheck.1, hcheck.2]
  exact ⟨rfl, rfl⟩

/-- C2 witness: burst of three distinct positive sizes ending in 1024x768 on
an 800x600 factory; the next `Present` applies 1024x768. -/
theorem c2_coalescing_last_writer_witness :
    ((applyResizeRequests (EglState.construct 800 600 true)
      ([(640, 480), (320, 240)] ++ [(1024, 768)])).Present true []
      false).1.GetRenderedWidth = 1024 ∧
    ((applyResizeRequests (EglState.construct 800 600 true)
      ([(640, 480), (320, 240)] ++ [(1024, 768)])).Present true []
      false).1.GetRenderedHeight = 768 :=
  c2_coalescing_last_writer (EglState.construct 800 600 true)
    [(640, 480), (320, 240)] 1024 768 true [] false (by decide) (by decide)
    (by decide)

/-! ## C1: SetSurfaceSize side effects (EGL deferred vs WGL immediate) -/

/-- C1 counterexample: on the WGL factory, `SetSurfaceSize(400, 300)` from
800x600 makes a GL context current and reallocates the colour texture's
storage on the calling thread — it is not limited to the pending-resize
record. -/
theorem c1_counterexample :
    GpuOp.makeCurrent ∈ (wglFallbackSample.SetSurfaceSize wglEnvAllOk
      400 300).2 ∧
    GpuOp.texImage2D 400 300 ∈ (wglFallbackSample.SetSurfaceSize wglEnvAllOk
      400 300).2 := by decide

/-- C1 amended: the claim holds for the EGL factory — its `SetSurfaceSize`
performs no GPU operation and mutates only the pending-resize record, leaving
the rendered size unchanged until `Present` applies it — whereas the WGL
factory's `SetSurfaceSize` performs the resize immediately on the calling
thread: it makes the GL context current and reallocates the texture storage
(and then recreates the shared texture). -/
theorem c1_egl_deferred_wgl_immediate :
    (∀ (s : EglState) (w h : Int),
      (s.SetSurfaceSize w h).2 = [] ∧
      (s.SetSurfaceSize w h).1.GetRenderedWidth = s.GetRenderedWidth ∧
      (s.SetSurfaceSize w h).1.GetRenderedHeight = s.GetRenderedHeight ∧
      (s.SetSurfaceSize w h).1.m_width = s.m_width ∧
      (s.SetSurfaceSize w h).1.m_height = s.m_height ∧
      (s.SetSurfaceSize w h).1.m_pixelBuffer = s.m_pixelBuffer ∧
      (s.SetSurfaceSize w h).1.m_framebuffer = s.m_framebuffer ∧
      (s.SetSurfaceSize w h).1.m_initialized = s.m_initialized) ∧
    (∀ (s : WglState) (env : WglCreateEnv) (w h : Int),
      ¬ (w = s.m_width ∧ h = s.m_height) → env.makeCurrentOk = true →
      GpuOp.makeCurrent ∈ (s.SetSurfaceSize env w h).2 ∧
      GpuOp.texImage2D w h ∈ (s.SetSurfaceSize env w h).2) := by
  constructor
  · intro s w h
    obtain ⟨h1, h2, h3, h4, h5, h6, h7, h8, -⟩ := egl_setSurfaceSize_state s w h
    exact ⟨h1, h4, h5, h2, h3, h6, h7, h8⟩
  · intro s env w h hne hmc
    unfold WglState.SetSurfaceSize
    rw [if_neg hne, if_neg (by simp [hmc])]
    dsimp only
    constructor
    · simp
    · simp

/-- C1 witness: concrete EGL call leaves the trace empty and the rendered
size unchanged; concrete WGL call reallocates storage. -/
theorem c1_egl_deferred_wgl_immediate_witness :
    ((EglState.construct 800 600 true).SetSurfaceSize 400 300).2 = [] ∧
    GpuOp.texImage2D 640 480 ∈ (wglFallbackSample.SetSurfaceSize wglEnvAllOk
      640 480).2 := by
  constructor
  · exact (c1_egl_deferred_wgl_immediate.1 (EglState.construct 800 600 true)
      400 300).1
  · exact (c1_egl_deferred_wgl_immediate.2 wglFallbackSample wglEnvAllOk
      640 480 (by decide) (by decide)).2

/-! ## C4: interop-registration fallback lifetime -/

/-- C4 counterexample: a factory already on the CPU fallback path (previous
registration failed, `m_interopObject = false`) that receives
`SetSurfaceSize(400, 300)` re-attempts interop registration inside
`CreateSharedTexture` and, if the driver now cooperates, leaves the fallback:
the registration attempt appears in the trace and the interop object is
re-established — the fallback is not permanent and registration is retried on
resize. -/
theorem c4_counterexample :
    GpuOp.registerObject ∈ (wglFallbackSample.SetSurfaceSize wglEnvAllOk
      400 300).2 ∧
    (wglFallbackSample.SetSurfaceSize wglEnvAllOk 400 300).1.m_interopObject
      = true := by decide

/-- C4 amended: the CPU fallback after a failed interop registration persists
only until the next `SetSurfaceSize` with a different size: the per-frame
transfer (`CopyToSharedTexture`) never attempts registration and never
changes the interop or fallback state, but `SetSurfaceSize` recreates the
shared texture and re-attempts interop registration whenever the interop
entry points are available. -/
theorem c4_fallback_until_next_resize :
    (∀ (s : WglState) (env : WglCopyEnv),
      GpuOp.registerObject ∉ (s.CopyToSharedTexture env).2 ∧
      (s.CopyToSharedTexture env).1.m_interopObject = s.m_interopObject ∧
      (s.CopyToSharedTexture env).1.m_interopDevice = s.m_interopDevice ∧
      (s.CopyToSharedTexture env).1.m_stagingTexture = s.m_stagingTexture ∧
      (s.CopyToSharedTexture env).1.m_sharedTexture = s.m_sharedTexture) ∧
    (∀ (s : WglState) (env : WglCreateEnv) (w h : Int),
      s.hasOpenDeviceFn = true →
      ¬ (w = s.m_width ∧ h = s.m_height) →
      env.prevContextIsOurs = true → env.makeCurrentOk = true →
      env.createSharedOk = true → env.asDxgiOk = true →
      env.getHandleOk = true → env.shouldUseKeyedMutex = false →
      env.openDeviceOk = true →
      GpuOp.registerObject ∈ (s.SetSurfaceSize env w h).2) := by
  constructor
  · intro s env
    unfold WglState.CopyToSharedTexture
    dsimp only
    split
    · simp
    · split
      · refine ⟨?_, rfl, rfl, rfl, rfl⟩
        intro hmem
        simp only [List.mem_append] at hmem
        rcases hmem with ((h | h) | h) | h
        · revert h; split <;> simp
        · simp at h
        · revert h; split <;> (try split) <;> simp
        · revert h; split <;> simp
      · refine ⟨?_, rfl, rfl, rfl, rfl⟩
        intro hmem
        simp only [List.mem_append] at hmem
        rcases hmem with (h | h) | h
        · revert h; split <;> simp
        · simp at h
        · revert h; split <;> simp
  · intro s env w h hfn hne hprev hmc hcs hdx hgh hkm hod
    unfold WglState.SetSurfaceSize
    rw [if_neg hne, if_neg (by simp [hmc])]
    dsimp only
    simp only [List.mem_append]
    right
    unfold WglState.CreateSharedTexture
    simp [hprev, hmc, hcs, hdx, hgh, hkm, hod, hfn]
    split <;> (try split) <;> (try split) <;> simp
/-- C4 witness: the per-frame transfer on the concrete fallback state makes
no registration attempt, while a concrete resize does re-attempt it. -/
theorem c4_fallback_until_next_resize_witness :
    GpuOp.registerObject ∉ (wglFallbackSample.CopyToSharedTexture
      { wasOurContext := true, viewportW := 800, viewportH := 600,
        acquireOk := true, lockOk := true }).2 ∧
    GpuOp.registerObject ∈ (wglFallbackSample.SetSurfaceSize wglEnvAllOk
      320 240).2 := by
  constructor
  · exact (c4_fallback_until_next_resize.1 wglFallbackSample
      { wasOurContext := true, viewportW := 800, viewportH := 600,
        acquireOk := true, lockOk := true }).1
  · exact c4_fallback_until_next_resize.2 wglFallbackSample wglEnvAllOk
      320 240 (by decide) (by decide) (by decide) (by decide) (by decide)
      (by decide) (by decide) (by decide) (by decide)
